import Mathlib

/-!
Shallow embedding of `src/gemini_webapi/server.py` (the FastAPI server of the
Gemini-API repository): cookie extraction, the keyed client cache and the
request handlers, together with proofs about them.  Upstream collaborators
(the `GeminiClient`, the filesystem, the network) are passed in as explicit
environment functions; handler results are `Except HTTPError` values paired
with the updated server state.
-/

namespace GeminiServer

/-- Python `str.strip()` whitespace test (the ASCII whitespace characters
stripped by CPython's `str.strip`). -/
def pyWhitespace (c : Char) : Bool :=
  c == ' ' || c == '\t' || c == '\n' || c == '\r' || c == '\x0b' || c == '\x0c'

/-- Python `str.strip()` on the character list of a cookie segment. -/
def pyStripChars (l : List Char) : List Char :=
  ((l.dropWhile pyWhitespace).reverse.dropWhile pyWhitespace).reverse

/-- Python `cookie_header.split(";")`: split a character list at every
semicolon, keeping empty segments (so splitting the empty string yields one
empty segment, as in Python). -/
def splitSemi : List Char → List (List Char)
  | [] => [[]]
  | c :: cs =>
    if c = ';' then [] :: splitSemi cs
    else
      match splitSemi cs with
      | [] => [[c]]
      | h :: t => (c :: h) :: t

/-- Characters of the literal `__Secure-1PSID=` matched by
`extract_cookies_from_request`. -/
def psidMarker : List Char := "__Secure-1PSID=".data

/-- Characters of the literal `__Secure-1PSIDTS=` matched by
`extract_cookies_from_request`. -/
def psidtsMarker : List Char := "__Secure-1PSIDTS=".data

/-- One iteration of the cookie-parsing loop of
`extract_cookies_from_request`: strip the segment, then test
`cookie.startswith("__Secure-1PSID=")` and the `elif` for
`__Secure-1PSIDTS=`.  `cookie.split("=", 1)[1]` equals dropping the marker,
because the marker ends at the segment's first `=`.  A later segment
overwrites an earlier one, as assignment does in the Python loop. -/
def parseCookieSegment (acc : Option String × Option String) (seg : List Char) :
    Option String × Option String :=
  let cookie := pyStripChars seg
  if psidMarker.isPrefixOf cookie then
    (some (cookie.drop psidMarker.length).asString, acc.2)
  else if psidtsMarker.isPrefixOf cookie then
    (acc.1, some (cookie.drop psidtsMarker.length).asString)
  else acc

/-- `extract_cookies_from_request` from `server.py`: parse the
`__Secure-1PSID` / `__Secure-1PSIDTS` cookie values out of the raw cookie
header. -/
def extract_cookies_from_request (cookieHeader : String) :
    Option String × Option String :=
  (splitSemi cookieHeader.data).foldl parseCookieSegment (none, none)

/-- Modelled from the spec: the upstream `GeminiClient`
(`gemini_webapi/client.py`, a repository file not among the given sources) is
an opaque capability with an `init` operation, a `close` operation and a
`_running` liveness flag; per the spec a session entry is live once created
("reused while liveness flag is true").  `id` identifies the concrete client
object constructed for the entry. -/
structure Client where
  id : Nat
  running : Bool
deriving DecidableEq

/-- The mutable server state: the module-level `client_cache` dictionary,
plus a counter supplying identities for freshly constructed clients. -/
structure ServerState where
  cache : List (String × Client)
  nextId : Nat
deriving DecidableEq

/-- A FastAPI `HTTPException`: status code and detail message. -/
structure HTTPError where
  status : Nat
  detail : String
deriving DecidableEq

/-- Dictionary lookup, serving `cache_key in client_cache` and
`client_cache[cache_key]`. -/
def cacheLookup : List (String × Client) → String → Option Client
  | [], _ => none
  | (k, c) :: rest, key => if k = key then some c else cacheLookup rest key

/-- Dictionary deletion `del client_cache[cache_key]`: afterwards the key has
no binding. -/
def cacheErase (cache : List (String × Client)) (key : String) :
    List (String × Client) :=
  cache.filter (fun e => !(e.1 == key))

/-- Dictionary assignment `client_cache[cache_key] = client`: replace the
binding if present, otherwise append it. -/
def cacheInsert : List (String × Client) → String → Client → List (String × Client)
  | [], key, c => [(key, c)]
  | (k, v) :: rest, key, c =>
    if k = key then (k, c) :: rest else (k, v) :: cacheInsert rest key c

/-- Python `secure_1psidts or ''` (both `None` and the empty string give
the empty string). -/
def pyOrEmpty : Option String → String
  | none => ""
  | some s => s

/-- The cache key of `get_client_for_cookies`:
the f-string joining `secure_1psid`, a colon and `secure_1psidts or ''`. -/
def cache_key (secure_1psid : String) (secure_1psidts : Option String) : String :=
  secure_1psid ++ ":" ++ pyOrEmpty secure_1psidts

/-- The creation part of `get_client_for_cookies`: construct a fresh
`GeminiClient`, run `client.init(timeout=30, auto_close=False,
auto_refresh=False)` (modelled by the environment function `init`, returning
`.ok ()` or the exception message), store the client on success, and raise
the 401 `HTTPException` on failure without storing anything. -/
def create_client (init : String → Option String → Except String Unit)
    (secure_1psid : String) (secure_1psidts : Option String) (st : ServerState) :
    Except HTTPError Client × ServerState :=
  let client : Client := { id := st.nextId, running := true }
  match init secure_1psid secure_1psidts with
  | .ok _ =>
    (.ok client,
     { cache := cacheInsert st.cache (cache_key secure_1psid secure_1psidts) client,
       nextId := st.nextId + 1 })
  | .error e =>
    (.error { status := 401,
              detail := "Failed to initialize Gemini client with provided cookies: " ++ e },
     st)

/-- `get_client_for_cookies` from `server.py`: return the cached client when
its `_running` flag is true, evict a dead entry and fall through to creation,
or create and cache a fresh client. -/
def get_client_for_cookies (init : String → Option String → Except String Unit)
    (secure_1psid : String) (secure_1psidts : Option String) (st : ServerState) :
    Except HTTPError Client × ServerState :=
  match cacheLookup st.cache (cache_key secure_1psid secure_1psidts) with
  | some client =>
    if client.running then (.ok client, st)
    else create_client init secure_1psid secure_1psidts
      { st with cache := cacheErase st.cache (cache_key secure_1psid secure_1psidts) }
  | none => create_client init secure_1psid secure_1psidts st

/-- Python truthiness of an `Optional[str]` (`if not req_psid`): `None` and
the empty string are falsy. -/
def pyFalsy : Option String → Bool
  | none => true
  | some s => s == ""

/-- The `Model` enumeration values reachable from `model_mapping`. -/
inductive ModelE where
  | g_3_0_pro
  | g_2_5_pro
  | g_2_5_flash
  | unspecified
deriving DecidableEq

/-- The `model_mapping.get(request.model, Model.G_2_5_FLASH)` dictionary
lookup shared by the handlers. -/
def model_mapping (name : String) : ModelE :=
  if name = "gemini-3.0-pro" then .g_3_0_pro
  else if name = "gemini-2.5-pro" then .g_2_5_pro
  else if name = "gemini-2.5-flash" then .g_2_5_flash
  else if name = "unspecified" then .unspecified
  else .g_2_5_flash

/-- The pydantic `GenerateRequest` body. -/
structure GenerateRequest where
  prompt : String
  model : String := "gemini-2.5-flash"
deriving DecidableEq

/-- The pydantic `ChatRequest` body. -/
structure ChatRequest where
  prompt : String
  model : String := "gemini-2.5-flash"
  chat_id : Option String := none
  reply_id : Option String := none
  reply_candidate_id : Option String := none
deriving DecidableEq

/-- The pydantic `ImageGenerateRequest` body. -/
structure ImageGenerateRequest where
  prompt : String
  model : String := "gemini-2.5-flash"
deriving DecidableEq

/-- An image on an upstream response: `url`, `title`, `alt`, and whether the
object has a `proxy` attribute (the marker distinguishing web images from
generated ones in the handlers' `hasattr(img, "proxy")` test). -/
structure UpstreamImage where
  url : String
  title : String
  alt : String
  hasProxy : Bool
deriving DecidableEq

/-- An upstream `ModelOutput`: the fields the handlers read (`text`,
`thoughts`, `images`, `metadata`, `rcid`). -/
structure UpstreamResponse where
  text : String
  thoughts : Option String
  images : List UpstreamImage
  metadata : List String
  rcid : String
deriving DecidableEq

/-- A shaped image entry `{"url", "title", "alt", "type"}`. -/
structure ImageInfo where
  url : String
  title : String
  alt : String
  type : String
deriving DecidableEq

/-- The `chat_metadata` dictionary of a `GenerateResponse`. -/
structure ChatMetadata where
  chat_id : Option String
  reply_id : Option String
  reply_candidate_id : String
deriving DecidableEq

/-- The pydantic `GenerateResponse` body. -/
structure GenerateResponse where
  text : String
  thoughts : Option String
  images : List ImageInfo
  chat_metadata : Option ChatMetadata
deriving DecidableEq

/-- The pydantic `ChatResponse` body. -/
structure ChatResponse where
  text : String
  thoughts : Option String
  images : List ImageInfo
  chat_id : String
  reply_id : String
  reply_candidate_id : String
deriving DecidableEq

/-- The image-shaping loop shared by `generate_content`, `chat_with_history`,
`edit_image` and `generate_with_files`: `"web" if hasattr(img, "proxy") else
"generated"`. -/
def shape_images (imgs : List UpstreamImage) : List ImageInfo :=
  imgs.map fun img =>
    { url := img.url, title := img.title, alt := img.alt,
      type := if img.hasProxy then "web" else "generated" }

/-- The `GenerateResponse` built by `generate_content` (and by the edit /
files handlers): shaped images plus `chat_metadata` from `metadata[0]`,
`metadata[1]` and `rcid`. -/
def shape_generate_response (resp : UpstreamResponse) : GenerateResponse :=
  { text := resp.text, thoughts := resp.thoughts,
    images := shape_images resp.images,
    chat_metadata := some
      { chat_id := resp.metadata[0]?, reply_id := resp.metadata[1]?,
        reply_candidate_id := resp.rcid } }

/-- The `ChatResponse` built by `chat_with_history`: metadata fields default
to the empty string when absent. -/
def shape_chat_response (resp : UpstreamResponse) : ChatResponse :=
  { text := resp.text, thoughts := resp.thoughts,
    images := shape_images resp.images,
    chat_id := (resp.metadata[0]?).getD "",
    reply_id := (resp.metadata[1]?).getD "",
    reply_candidate_id := resp.rcid }

/-- The 400 `HTTPException` raised when `__Secure-1PSID` is missing (the long
message shared by the five POST handlers). -/
def missingCookieError : HTTPError :=
  { status := 400,
    detail := "Missing required cookie: __Secure-1PSID. Please provide Gemini cookies in the Cookie header." }

/-- `generate_content` (`POST /generate`): extract cookies, reject falsy
`req_psid` with 400, acquire the client, call the upstream generation
(environment function `gen`, taking the client, the prompt and the model) and
shape the response; an upstream exception becomes a 500. -/
def generate_content (init : String → Option String → Except String Unit)
    (gen : Client → String → ModelE → Except String UpstreamResponse)
    (cookieHeader : String) (req : GenerateRequest) (st : ServerState) :
    Except HTTPError GenerateResponse × ServerState :=
  match extract_cookies_from_request cookieHeader with
  | (req_psid, req_psidts) =>
    match req_psid with
    | none => (.error missingCookieError, st)
    | some psid =>
      if psid = "" then (.error missingCookieError, st)
      else
        match get_client_for_cookies init psid req_psidts st with
        | (.error e, st') => (.error e, st')
        | (.ok client, st') =>
          match gen client req.prompt (model_mapping req.model) with
          | .ok resp => (.ok (shape_generate_response resp), st')
          | .error e =>
            (.error { status := 500, detail := "Failed to generate content: " ++ e }, st')

/-- The truthiness filter of the chat handler's metadata loop: a field is
appended only when it is neither `None` nor the empty string. -/
def pyTruthyList : Option String → List String
  | none => []
  | some s => if s = "" then [] else [s]

/-- The `metadata` list built by `chat_with_history`: the three `if request
.field: metadata.append(request.field)` statements, in order. -/
def chat_metadata_list (chat_id reply_id reply_candidate_id : Option String) :
    List String :=
  pyTruthyList chat_id ++ pyTruthyList reply_id ++ pyTruthyList reply_candidate_id

/-- The `metadata=metadata if metadata else None` argument passed to
`start_chat`. -/
def chat_metadata_arg (chat_id reply_id reply_candidate_id : Option String) :
    Option (List String) :=
  let m := chat_metadata_list chat_id reply_id reply_candidate_id
  if m = [] then none else some m

/-- `chat_with_history` (`POST /chat`): like `generate_content`, but the
upstream call (`start_chat(metadata=..., model=...)` followed by
`send_message(prompt)`) is modelled by the environment function
`sendMessage`, which receives the metadata argument built by
`chat_metadata_arg`. -/
def chat_with_history (init : String → Option String → Except String Unit)
    (sendMessage : Client → Option (List String) → ModelE → String →
      Except String UpstreamResponse)
    (cookieHeader : String) (req : ChatRequest) (st : ServerState) :
    Except HTTPError ChatResponse × ServerState :=
  match extract_cookies_from_request cookieHeader with
  | (req_psid, req_psidts) =>
    match req_psid with
    | none => (.error missingCookieError, st)
    | some psid =>
      if psid = "" then (.error missingCookieError, st)
      else
        match get_client_for_cookies init psid req_psidts st with
        | (.error e, st') => (.error e, st')
        | (.ok client, st') =>
          let metadata := chat_metadata_arg req.chat_id req.reply_id req.reply_candidate_id
          match sendMessage client metadata (model_mapping req.model) req.prompt with
          | .ok resp => (.ok (shape_chat_response resp), st')
          | .error e =>
            (.error { status := 500, detail := "Failed to chat: " ++ e }, st')

/-- Python substring containment `pat in s` on character lists. -/
def listContains : List Char → List Char → Bool
  | [], pat => pat.isEmpty
  | c :: cs, pat => pat.isPrefixOf (c :: cs) || listContains cs pat

/-- Python substring containment on strings. -/
def strContains (s pat : String) : Bool := listContains s.data pat.data

/-- The `prompts_to_try` list of `generate_image`, in source order. -/
def prompts_to_try (prompt : String) : List String :=
  ["Create an image of " ++ prompt,
   "Generate a picture showing " ++ prompt,
   "Draw " ++ prompt,
   "Make an image: " ++ prompt]

/-- The generated-content URL marker tested by `generate_image`. -/
def generatedMarker : String := "googleusercontent.com/image_generation_content"

/-- The image-extraction loop of `generate_image`: keep images with a
non-empty `url`, classifying each as `"generated"` when the URL contains
`generatedMarker`, else `"web"`. -/
def image_gen_extract (imgs : List UpstreamImage) : List ImageInfo :=
  (imgs.filter fun img => !(img.url == "")).map fun img =>
    { url := img.url, title := img.title, alt := img.alt,
      type := if strContains img.url generatedMarker then "generated" else "web" }

/-- The success `GenerateResponse` returned from inside the template loop of
`generate_image`. -/
def image_success_response (resp : UpstreamResponse) : GenerateResponse :=
  { text := resp.text, thoughts := resp.thoughts,
    images := image_gen_extract resp.images,
    chat_metadata := some
      { chat_id := resp.metadata[0]?, reply_id := resp.metadata[1]?,
        reply_candidate_id := resp.rcid } }

/-- Python `last_error or default` on an `Optional[str]` (both `None` and the
empty string fall through to the default). -/
def pyOrStr (lastError : Option String) (default : String) : String :=
  match lastError with
  | none => default
  | some s => if s = "" then default else s

/-- The generic message raised when `last_error` is falsy after the loop. -/
def allVariationsMsg : String := "Failed to generate image with all prompt variations"

/-- The template loop of `generate_image`: try each prompt variation in
order; an upstream exception records its message and continues; a response
with no extracted image records the `"No images generated with prompt: ..."`
message and continues; a response with images returns immediately.  After the
loop `raise Exception(last_error or ...)`.  The second component logs the
variations actually sent upstream. -/
def generate_image_loop (gen : String → Except String UpstreamResponse) :
    List String → Option String → Except String GenerateResponse × List String
  | [], lastError => (.error (pyOrStr lastError allVariationsMsg), [])
  | v :: rest, lastError =>
    match gen v with
    | .error e =>
      let r := generate_image_loop gen rest (some e)
      (r.1, v :: r.2)
    | .ok resp =>
      if (image_gen_extract resp.images).isEmpty then
        let r := generate_image_loop gen rest
          (some ("No images generated with prompt: " ++ v))
        (r.1, v :: r.2)
      else (.ok (image_success_response resp), [v])

/-- `generate_image` (`POST /generate-image`): extract cookies, reject falsy
`req_psid`, acquire the client, then run the template loop; the exception
escaping the loop is wrapped into a 500 by the handler's outer `except`.  The
third component logs the prompt variations sent upstream. -/
def generate_image (init : String → Option String → Except String Unit)
    (gen : Client → String → ModelE → Except String UpstreamResponse)
    (cookieHeader : String) (req : ImageGenerateRequest) (st : ServerState) :
    Except HTTPError GenerateResponse × ServerState × List String :=
  match extract_cookies_from_request cookieHeader with
  | (req_psid, req_psidts) =>
    match req_psid with
    | none => (.error missingCookieError, st, [])
    | some psid =>
      if psid = "" then (.error missingCookieError, st, [])
      else
        match get_client_for_cookies init psid req_psidts st with
        | (.error e, st') => (.error e, st', [])
        | (.ok client, st') =>
          let model := model_mapping req.model
          match generate_image_loop (fun v => gen client v model)
              (prompts_to_try req.prompt) none with
          | (.ok r, log) => (.ok r, st', log)
          | (.error e, log) =>
            (.error { status := 500, detail := "Failed to generate image: " ++ e },
             st', log)

/-- The `try ... finally: os.unlink(temp_file_path)` of `edit_image`: the
unlink always runs; when it raises, its exception supersedes the inner
result (a pending `return` or a pending exception is discarded). -/
def edit_image_try (genResult : Except String UpstreamResponse)
    (unlinkErr : Option String) : Except String GenerateResponse :=
  let inner : Except String GenerateResponse :=
    match genResult with
    | .ok resp => .ok (shape_generate_response resp)
    | .error e => .error e
  match unlinkErr with
  | none => inner
  | some err => .error err

/-- `edit_image` (`POST /edit-image`): the uploaded image is staged to the
temporary path `tmpPath` (staging assumed successful; the path is supplied by
the temporary-file facility), the upstream call receives the prefixed prompt
and `[tmpPath]`, the staged file is unlinked in a `finally`, and any escaping
exception becomes a 500.  `unlinkErr tmpPath` is the release outcome; the
third component logs the paths on which unlink was invoked. -/
def edit_image (init : String → Option String → Except String Unit)
    (gen : Client → String → List String → ModelE → Except String UpstreamResponse)
    (unlinkErr : String → Option String) (tmpPath : String)
    (cookieHeader : String) (prompt : String) (modelName : String)
    (st : ServerState) :
    Except HTTPError GenerateResponse × ServerState × List String :=
  match extract_cookies_from_request cookieHeader with
  | (req_psid, req_psidts) =>
    match req_psid with
    | none => (.error missingCookieError, st, [])
    | some psid =>
      if psid = "" then (.error missingCookieError, st, [])
      else
        match get_client_for_cookies init psid req_psidts st with
        | (.error e, st') => (.error e, st', [])
        | (.ok client, st') =>
          let model := model_mapping modelName
          match edit_image_try
              (gen client ("Edit this image: " ++ prompt) [tmpPath] model)
              (unlinkErr tmpPath) with
          | .ok r => (.ok r, st', [tmpPath])
          | .error e =>
            (.error { status := 500, detail := "Failed to edit image: " ++ e },
             st', [tmpPath])

/-- `generate_with_files` (`POST /generate-with-files`): the uploads are
staged to `tmpPaths` (staging assumed successful), the upstream call receives
the prompt and the staged paths, and the `finally` unlinks every staged path
with each unlink wrapped in `try ... except: pass`, so release outcomes
(`unlinkErr`) never change the result.  The third component logs the paths on
which unlink was invoked. -/
def generate_with_files (init : String → Option String → Except String Unit)
    (gen : Client → String → List String → ModelE → Except String UpstreamResponse)
    (unlinkErr : String → Option String) (tmpPaths : List String)
    (cookieHeader : String) (prompt : String) (modelName : String)
    (st : ServerState) :
    Except HTTPError GenerateResponse × ServerState × List String :=
  match extract_cookies_from_request cookieHeader with
  | (req_psid, req_psidts) =>
    match req_psid with
    | none => (.error missingCookieError, st, [])
    | some psid =>
      if psid = "" then (.error missingCookieError, st, [])
      else
        match get_client_for_cookies init psid req_psidts st with
        | (.error e, st') => (.error e, st', [])
        | (.ok client, st') =>
          let model := model_mapping modelName
          match gen client prompt tmpPaths model with
          | .ok resp => (.ok (shape_generate_response resp), st', tmpPaths)
          | .error e =>
            (.error { status := 500,
                      detail := "Failed to generate content with files: " ++ e },
             st', tmpPaths)

/-- Starlette's `HTTPException.__str__`, producing the text seen when a
handler's blanket `except Exception` stringifies a caught `HTTPException`. -/
def http_exception_str (e : HTTPError) : String :=
  Nat.repr e.status ++ ": " ++ e.detail

/-- The binary response returned by `download_image`. -/
structure DownloadResponse where
  content : List Nat
  media_type : String
deriving DecidableEq

/-- The short 400 message of `download_image`. -/
def missingCookieShortError : HTTPError :=
  { status := 400, detail := "Missing required cookie: __Secure-1PSID" }

/-- `download_image` (`GET /download-image`): the client acquisition sits
INSIDE the handler's `try`, so the 401 `HTTPException` raised by
`get_client_for_cookies` is caught by `except Exception as e` and re-raised
as a 500 whose detail stringifies the caught exception.  `save` models
`GeneratedImage.save` followed by the `os.path.exists` check and the read of
the saved bytes: `.ok (some bytes)` when a truthy existing path was saved,
`.ok none` when `saved_path` is falsy or missing (the inner 500
`HTTPException "Failed to save image"`, itself caught and re-wrapped), and
`.error msg` when saving raises. -/
def download_image (init : String → Option String → Except String Unit)
    (save : Client → String → Except String (Option (List Nat)))
    (cookieHeader : String) (url : String) (st : ServerState) :
    Except HTTPError DownloadResponse × ServerState :=
  match extract_cookies_from_request cookieHeader with
  | (req_psid, req_psidts) =>
    match req_psid with
    | none => (.error missingCookieShortError, st)
    | some psid =>
      if psid = "" then (.error missingCookieShortError, st)
      else
        match get_client_for_cookies init psid req_psidts st with
        | (.error e, st') =>
          (.error { status := 500,
                    detail := "Error downloading image: " ++ http_exception_str e },
           st')
        | (.ok client, st') =>
          match save client url with
          | .ok (some bytes) =>
            (.ok { content := bytes, media_type := "image/png" }, st')
          | .ok none =>
            (.error { status := 500,
                      detail := "Error downloading image: " ++
                        http_exception_str { status := 500, detail := "Failed to save image" } },
             st')
          | .error e =>
            (.error { status := 500, detail := "Error downloading image: " ++ e }, st')

/-- The close loop of `shutdown_event`: walk the cache entries in order and
invoke `close` on each client whose `_running` flag is true, returning the
clients closed, in order. -/
def close_live : List (String × Client) → List Client
  | [] => []
  | (_, c) :: rest => if c.running then c :: close_live rest else close_live rest

/-- `shutdown_event`: close every running cached client, then
`client_cache.clear()`.  The second component is the list of close
invocations. -/
def shutdown_event (st : ServerState) : ServerState × List Client :=
  ({ st with cache := [] }, close_live st.cache)

/-- The empty server state (service start). -/
def st0 : ServerState := { cache := [], nextId := 0 }

/-- Spec reading of C6 and C2's presence wording: the subset of the metadata
fields that are present (supplied, i.e. not `None`), in order. -/
def presentSubset (chat_id reply_id reply_candidate_id : Option String) :
    List String :=
  chat_id.toList ++ reply_id.toList ++ reply_candidate_id.toList

/-- The 401 `HTTPException` raised by `get_client_for_cookies` when
`client.init` fails with message `e`. -/
def init_fail_error (e : String) : HTTPError :=
  { status := 401,
    detail := "Failed to initialize Gemini client with provided cookies: " ++ e }

/-- A template attempt that yields no image: the upstream call raised, or
the response contained no image with a non-empty URL. -/
def attempt_fails (gen : String → Except String UpstreamResponse) (v : String) : Bool :=
  match gen v with
  | .error _ => true
  | .ok resp => (image_gen_extract resp.images).isEmpty

/-- The `last_error` value recorded by a failing template attempt: the
exception message, or the `"No images generated with prompt: ..."` note. -/
def attempt_record (gen : String → Except String UpstreamResponse) (v : String) : String :=
  match gen v with
  | .error e => e
  | .ok _ => "No images generated with prompt: " ++ v

/-- The exception message escaping the template loop when every attempt in
the list fails, starting from recorded error `le`. -/
def final_error (gen : String → Except String UpstreamResponse) :
    List String → Option String → String
  | [], le => pyOrStr le allVariationsMsg
  | v :: rest, _le => final_error gen rest (some (attempt_record gen v))

theorem length_ne_zero_of_ne_empty (s : String) (h : s ≠ "") : s.length ≠ 0 := by
  cases s with
  | mk d =>
    cases d with
    | nil => simp at h
    | cons c cs => simp [String.length]

theorem cacheLookup_cacheInsert (l : List (String × Client)) (k : String) (c : Client) :
    cacheLookup (cacheInsert l k c) k = some c := by
  induction l with
  | nil => simp [cacheInsert, cacheLookup]
  | cons e rest ih =>
    obtain ⟨k', c'⟩ := e
    by_cases h : k' = k
    · simp [cacheInsert, h, cacheLookup]
    · simp [cacheInsert, h, cacheLookup, ih]

theorem cacheLookup_cacheErase (l : List (String × Client)) (k : String) :
    cacheLookup (cacheErase l k) k = none := by
  induction l with
  | nil => rfl
  | cons e rest ih =>
    obtain ⟨k', c'⟩ := e
    by_cases h : k' = k
    · simpa [cacheErase, h] using ih
    · simpa [cacheErase, h, cacheLookup] using ih

theorem generate_content_falsy (init : String → Option String → Except String Unit)
    (gen : Client → String → ModelE → Except String UpstreamResponse)
    (h : String) (req : GenerateRequest) (st : ServerState)
    (hx : pyFalsy (extract_cookies_from_request h).1 = true) :
    generate_content init gen h req st = (.error missingCookieError, st) := by
  unfold generate_content
  rcases hp : extract_cookies_from_request h with ⟨p, t⟩
  rw [hp] at hx
  cases p with
  | none => rfl
  | some s =>
    simp only [pyFalsy, beq_iff_eq] at hx
    simp [hx]

theorem chat_with_history_falsy (init : String → Option String → Except String Unit)
    (sm : Client → Option (List String) → ModelE → String → Except String UpstreamResponse)
    (h : String) (req : ChatRequest) (st : ServerState)
    (hx : pyFalsy (extract_cookies_from_request h).1 = true) :
    chat_with_history init sm h req st = (.error missingCookieError, st) := by
  unfold chat_with_history
  rcases hp : extract_cookies_from_request h with ⟨p, t⟩
  rw [hp] at hx
  cases p with
  | none => rfl
  | some s =>
    simp only [pyFalsy, beq_iff_eq] at hx
    simp [hx]

theorem generate_image_falsy (init : String → Option String → Except String Unit)
    (gen : Client → String → ModelE → Except String UpstreamResponse)
    (h : String) (req : ImageGenerateRequest) (st : ServerState)
    (hx : pyFalsy (extract_cookies_from_request h).1 = true) :
    generate_image init gen h req st = (.error missingCookieError, st, []) := by
  unfold generate_image
  rcases hp : extract_cookies_from_request h with ⟨p, t⟩
  rw [hp] at hx
  cases p with
  | none => rfl
  | some s =>
    simp only [pyFalsy, beq_iff_eq] at hx
    simp [hx]

theorem edit_image_falsy (init : String → Option String → Except String Unit)
    (gen : Client → String → List String → ModelE → Except String UpstreamResponse)
    (u : String → Option String) (tp : String)
    (h : String) (prompt modelName : String) (st : ServerState)
    (hx : pyFalsy (extract_cookies_from_request h).1 = true) :
    edit_image init gen u tp h prompt modelName st = (.error missingCookieError, st, []) := by
  unfold edit_image
  rcases hp : extract_cookies_from_request h with ⟨p, t⟩
  rw [hp] at hx
  cases p with
  | none => rfl
  | some s =>
    simp only [pyFalsy, beq_iff_eq] at hx
    simp [hx]

theorem generate_with_files_falsy (init : String → Option String → Except String Unit)
    (gen : Client → String → List String → ModelE → Except String UpstreamResponse)
    (u : String → Option String) (tps : List String)
    (h : String) (prompt modelName : String) (st : ServerState)
    (hx : pyFalsy (extract_cookies_from_request h).1 = true) :
    generate_with_files init gen u tps h prompt modelName st =
      (.error missingCookieError, st, []) := by
  unfold generate_with_files
  rcases hp : extract_cookies_from_request h with ⟨p, t⟩
  rw [hp] at hx
  cases p with
  | none => rfl
  | some s =>
    simp only [pyFalsy, beq_iff_eq] at hx
    simp [hx]

theorem download_image_falsy (init : String → Option String → Except String Unit)
    (save : Client → String → Except String (Option (List Nat)))
    (h : String) (url : String) (st : ServerState)
    (hx : pyFalsy (extract_cookies_from_request h).1 = true) :
    download_image init save h url st = (.error missingCookieShortError, st) := by
  unfold download_image
  rcases hp : extract_cookies_from_request h with ⟨p, t⟩
  rw [hp] at hx
  cases p with
  | none => rfl
  | some s =>
    simp only [pyFalsy, beq_iff_eq] at hx
    simp [hx]

theorem get_client_ok_cached (init : String → Option String → Except String Unit)
    (psid : String) (psidts : Option String) (st st₁ : ServerState) (c : Client)
    (h : get_client_for_cookies init psid psidts st = (.ok c, st₁)) :
    cacheLookup st₁.cache (cache_key psid psidts) = some c := by
  unfold get_client_for_cookies at h
  cases hl : cacheLookup st.cache (cache_key psid psidts) with
  | some cl =>
    rw [hl] at h
    by_cases hr : cl.running
    · simp only [hr, if_true, Prod.mk.injEq] at h
      obtain ⟨hc, hst⟩ := h
      cases hc
      rw [← hst]
      exact hl
    · simp only [hr, if_false, Bool.false_eq_true] at h
      unfold create_client at h
      cases hi : init psid psidts with
      | ok u =>
        rw [hi] at h
        simp only [Prod.mk.injEq] at h
        obtain ⟨hc, hst⟩ := h
        cases hc
        rw [← hst]
        exact cacheLookup_cacheInsert _ _ _
      | error e =>
        rw [hi] at h
        simp at h
  | none =>
    rw [hl] at h
    unfold create_client at h
    cases hi : init psid psidts with
    | ok u =>
      rw [hi] at h
      simp only [Prod.mk.injEq] at h
      obtain ⟨hc, hst⟩ := h
      cases hc
      rw [← hst]
      exact cacheLookup_cacheInsert _ _ _
    | error e =>
      rw [hi] at h
      simp at h

/-- Claim C1: (a) after an `acquire` call returns a client whose liveness
flag is (still) true, a second sequential `acquire` with the same identity
pair returns that same cached client and leaves the state untouched — no
second initialization; (b) when the cached entry for the key is dead at the
second call and initialization succeeds, the call returns a freshly
initialized live client (identity taken from the fresh-object counter, which
advances) rather than the dead one, and the cache then maps the key to the
fresh client. -/
theorem claim_C1 (init : String → Option String → Except String Unit)
    (psid : String) (psidts : Option String) :
    (∀ st st₁ c, get_client_for_cookies init psid psidts st = (.ok c, st₁) →
      c.running = true →
      get_client_for_cookies init psid psidts st₁ = (.ok c, st₁)) ∧
    (∀ st d, cacheLookup st.cache (cache_key psid psidts) = some d →
      d.running = false → init psid psidts = .ok () →
      ∃ c st₁, get_client_for_cookies init psid psidts st = (.ok c, st₁) ∧
        c.running = true ∧ c ≠ d ∧ c.id = st.nextId ∧ st₁.nextId = st.nextId + 1 ∧
        cacheLookup st₁.cache (cache_key psid psidts) = some c) := by
  constructor
  · intro st st₁ c h hr
    have hc := get_client_ok_cached init psid psidts st st₁ c h
    unfold get_client_for_cookies
    rw [hc]
    simp [hr]
  · intro st d hl hr hi
    refine ⟨{ id := st.nextId, running := true },
      { cache := cacheInsert (cacheErase st.cache (cache_key psid psidts))
          (cache_key psid psidts) { id := st.nextId, running := true },
        nextId := st.nextId + 1 }, ?_, rfl, ?_, rfl, rfl, ?_⟩
    · unfold get_client_for_cookies create_client
      rw [hl]
      simp [hr, hi]
    · intro hcd
      rw [← hcd] at hr
      simp at hr
    · exact cacheLookup_cacheInsert _ _ _

theorem claim_C1_witness :
    (get_client_for_cookies (fun _ _ => .ok ()) "psid" none
        { cache := [("psid:", { id := 0, running := true })], nextId := 1 } =
      (.ok { id := 0, running := true },
       { cache := [("psid:", { id := 0, running := true })], nextId := 1 })) ∧
    (∃ c st₁, get_client_for_cookies (fun _ _ => .ok ()) "psid" none
        { cache := [("psid:", { id := 3, running := false })], nextId := 4 } =
          (.ok c, st₁) ∧
      c.running = true ∧ c ≠ { id := 3, running := false } ∧ c.id = 4 ∧
      st₁.nextId = 5 ∧ cacheLookup st₁.cache (cache_key "psid" none) = some c) :=
  ⟨(claim_C1 (fun _ _ => .ok ()) "psid" none).1
      { cache := [("psid:", { id := 0, running := true })], nextId := 1 }
      { cache := [("psid:", { id := 0, running := true })], nextId := 1 }
      { id := 0, running := true } rfl rfl,
   (claim_C1 (fun _ _ => .ok ()) "psid" none).2
      { cache := [("psid:", { id := 3, running := false })], nextId := 4 }
      { id := 3, running := false } rfl rfl rfl⟩

theorem get_client_fail (init : String → Option String → Except String Unit)
    (psid : String) (psidts : Option String) (st : ServerState) (e : String)
    (hstale : cacheLookup st.cache (cache_key psid psidts) = none ∨
      ∃ d, cacheLookup st.cache (cache_key psid psidts) = some d ∧ d.running = false)
    (hi : init psid psidts = .error e) :
    ∃ st', get_client_for_cookies init psid psidts st = (.error (init_fail_error e), st') ∧
      cacheLookup st'.cache (cache_key psid psidts) = none := by
  rcases hstale with hl | ⟨d, hl, hr⟩
  · refine ⟨st, ?_, hl⟩
    unfold get_client_for_cookies create_client
    rw [hl, hi]
    rfl
  · refine ⟨{ st with cache := cacheErase st.cache (cache_key psid psidts) }, ?_, ?_⟩
    · unfold get_client_for_cookies create_client
      rw [hl]
      simp [hr, hi]
      rfl
    · exact cacheLookup_cacheErase _ _

/-- Claim C3, counterexample: on `GET /download-image` the client acquisition
sits inside the handler's `try`, so when initialization fails for the
supplied tokens the 401 `HTTPException` is caught by `except Exception` and
the response status is 500, not 401 as the claim states for every
content-producing endpoint including the image download proxy. -/
theorem claim_C3_counterexample :
    download_image (fun _ _ => .error "bad cookies") (fun _ _ => .ok none)
        "__Secure-1PSID=abc" "url" st0 =
      (.error { status := 500,
                detail := "Error downloading image: 401: Failed to initialize Gemini client with provided cookies: bad cookies" },
       st0) ∧
    (download_image (fun _ _ => .error "bad cookies") (fun _ _ => .ok none)
        "__Secure-1PSID=abc" "url" st0).1 ≠
      .error (init_fail_error "bad cookies") := by
  constructor
  · rfl
  · intro h
    have hfst : (download_image (fun _ _ => .error "bad cookies") (fun _ _ => .ok none)
        "__Secure-1PSID=abc" "url" st0).1 =
        Except.error
          { status := 500,
            detail := "Error downloading image: 401: Failed to initialize Gemini client with provided cookies: bad cookies" } := rfl
    rw [hfst] at h
    have h2 := congrArg HTTPError.status (Except.error.inj h)
    simp [init_fail_error] at h2

/-- Claim C3 (amended): when the supplied tokens cause upstream session
initialization to fail (the cache holding no live entry for the key), the
five POST content handlers respond 401 and the image download proxy responds
500 (its blanket `except Exception` re-wraps the 401 `HTTPException`); in
every case no entry for the cache key is stored in the session cache after
the failing call. -/
theorem claim_C3 (init : String → Option String → Except String Unit)
    (h : String) (st : ServerState) (psid : String) (psidts : Option String) (e : String)
    (hx : extract_cookies_from_request h = (some psid, psidts)) (hpsid : psid ≠ "")
    (hstale : cacheLookup st.cache (cache_key psid psidts) = none ∨
      ∃ d, cacheLookup st.cache (cache_key psid psidts) = some d ∧ d.running = false)
    (hi : init psid psidts = .error e) :
    (∀ gen req, ∃ st', generate_content init gen h req st =
        (.error (init_fail_error e), st') ∧
      cacheLookup st'.cache (cache_key psid psidts) = none) ∧
    (∀ sm req, ∃ st', chat_with_history init sm h req st =
        (.error (init_fail_error e), st') ∧
      cacheLookup st'.cache (cache_key psid psidts) = none) ∧
    (∀ gen req, ∃ st', generate_image init gen h req st =
        (.error (init_fail_error e), st', []) ∧
      cacheLookup st'.cache (cache_key psid psidts) = none) ∧
    (∀ gen u tp prompt mn, ∃ st', edit_image init gen u tp h prompt mn st =
        (.error (init_fail_error e), st', []) ∧
      cacheLookup st'.cache (cache_key psid psidts) = none) ∧
    (∀ gen u tps prompt mn, ∃ st', generate_with_files init gen u tps h prompt mn st =
        (.error (init_fail_error e), st', []) ∧
      cacheLookup st'.cache (cache_key psid psidts) = none) ∧
    (∀ save url, ∃ st', download_image init save h url st =
        (.error { status := 500,
                  detail := "Error downloading image: " ++
                    http_exception_str (init_fail_error e) }, st') ∧
      cacheLookup st'.cache (cache_key psid psidts) = none) := by
  obtain ⟨st', hg, hlook⟩ := get_client_fail init psid psidts st e hstale hi
  refine ⟨?_, ?_, ?_, ?_, ?_, ?_⟩
  · intro gen req
    refine ⟨st', ?_, hlook⟩
    unfold generate_content
    rw [hx]
    simp [hpsid, hg]
  · intro sm req
    refine ⟨st', ?_, hlook⟩
    unfold chat_with_history
    rw [hx]
    simp [hpsid, hg]
  · intro gen req
    refine ⟨st', ?_, hlook⟩
    unfold generate_image
    rw [hx]
    simp [hpsid, hg]
  · intro gen u tp prompt mn
    refine ⟨st', ?_, hlook⟩
    unfold edit_image
    rw [hx]
    simp [hpsid, hg]
  · intro gen u tps prompt mn
    refine ⟨st', ?_, hlook⟩
    unfold generate_with_files
    rw [hx]
    simp [hpsid, hg]
  · intro save url
    refine ⟨st', ?_, hlook⟩
    unfold download_image
    rw [hx]
    simp [hpsid, hg]

theorem claim_C3_witness :
    ∃ st', generate_content (fun _ _ => .error "bad cookies")
        (fun _ _ _ => .error "unused") "__Secure-1PSID=abc"
        { prompt := "p" } st0 =
      (.error (init_fail_error "bad cookies"), st') ∧
      cacheLookup st'.cache (cache_key "abc" none) = none :=
  (claim_C3 (fun _ _ => .error "bad cookies") "__Secure-1PSID=abc" st0 "abc" none
      "bad cookies" (by decide) (by decide) (Or.inl rfl) rfl).1
    (fun _ _ _ => .error "unused") { prompt := "p" }

/-- Claim C2, counterexample: the claim asserts that two requests with the
same primary token differing in secondary-token presence resolve to distinct
cache keys, but a present-but-empty secondary token (`some ""`, which differs
in presence from `none`) yields the same cache key as an absent one. -/
theorem claim_C2_counterexample :
    (some "" : Option String) ≠ none ∧
    cache_key "psid" (some "") = cache_key "psid" none :=
  ⟨by decide, rfl⟩

/-- Claim C2 (amended): the cache key is a deterministic function of the
identity pair; two requests with the same primary token of which exactly one
supplies a NON-EMPTY secondary token resolve to distinct cache keys; a
present-but-empty secondary token yields the same key as an absent one. -/
theorem claim_C2 (p p' : String) (ts ts' : Option String) (s : String)
    (hs : s ≠ "") :
    (p = p' → ts = ts' → cache_key p ts = cache_key p' ts') ∧
    cache_key p (some s) ≠ cache_key p none ∧
    cache_key p (some "") = cache_key p none := by
  refine ⟨fun h1 h2 => by rw [h1, h2], ?_, rfl⟩
  intro h
  have hl := congrArg String.length h
  simp only [cache_key, pyOrEmpty, String.length_append] at hl
  have hz : s.length ≠ 0 := length_ne_zero_of_ne_empty s hs
  have h1 : (":" : String).length = 1 := rfl
  have h2 : ("" : String).length = 0 := rfl
  omega

theorem claim_C2_witness :
    ("ts" : String) ≠ "" ∧
    cache_key "p" (some "ts") ≠ cache_key "p" none :=
  ⟨by decide, (claim_C2 "p" "p" none none "ts" (by decide)).2.1⟩

/-- Claim C4: a request whose cookie header yields no primary token is
answered 400 by every content-producing handler with the server state
unchanged; the equations hold for every upstream environment (`init`, the
generation call, the unlink outcomes), so no session creation or upstream
call can have occurred, and the invocation logs are empty. -/
theorem claim_C4 (h : String) (st : ServerState)
    (hx : (extract_cookies_from_request h).1 = none) :
    (∀ init gen req, generate_content init gen h req st =
      (.error missingCookieError, st)) ∧
    (∀ init sm req, chat_with_history init sm h req st =
      (.error missingCookieError, st)) ∧
    (∀ init gen req, generate_image init gen h req st =
      (.error missingCookieError, st, [])) ∧
    (∀ init gen u tp prompt mn, edit_image init gen u tp h prompt mn st =
      (.error missingCookieError, st, [])) ∧
    (∀ init gen u tps prompt mn, generate_with_files init gen u tps h prompt mn st =
      (.error missingCookieError, st, [])) ∧
    (∀ init save url, download_image init save h url st =
      (.error missingCookieShortError, st)) := by
  have hf : pyFalsy (extract_cookies_from_request h).1 = true := by
    rw [hx]; rfl
  exact ⟨fun init gen req => generate_content_falsy init gen h req st hf,
    fun init sm req => chat_with_history_falsy init sm h req st hf,
    fun init gen req => generate_image_falsy init gen h req st hf,
    fun init gen u tp prompt mn => edit_image_falsy init gen u tp h prompt mn st hf,
    fun init gen u tps prompt mn => generate_with_files_falsy init gen u tps h prompt mn st hf,
    fun init save url => download_image_falsy init save h url st hf⟩

theorem claim_C4_witness :
    (extract_cookies_from_request "foo=bar").1 = none ∧
    generate_content (fun _ _ => .ok ()) (fun _ _ _ => .error "e") "foo=bar"
      { prompt := "p" } st0 = (.error missingCookieError, st0) :=
  ⟨by decide, (claim_C4 "foo=bar" st0 (by decide)).1 _ _ _⟩

/-- Claim C9: a cookie header whose primary cookie has an empty value
(segment `__Secure-1PSID=`) extracts to `some ""`, and because the handlers'
presence check is a Python falsiness test, every content-producing handler
treats it exactly like an absent token: 400, state unchanged, and no
dependence on the upstream environment. -/
theorem claim_C9 (h : String) (st : ServerState)
    (hx : (extract_cookies_from_request h).1 = some "") :
    (extract_cookies_from_request "__Secure-1PSID=").1 = some "" ∧
    (∀ init gen req, generate_content init gen h req st =
      (.error missingCookieError, st)) ∧
    (∀ init sm req, chat_with_history init sm h req st =
      (.error missingCookieError, st)) ∧
    (∀ init gen req, generate_image init gen h req st =
      (.error missingCookieError, st, [])) ∧
    (∀ init gen u tp prompt mn, edit_image init gen u tp h prompt mn st =
      (.error missingCookieError, st, [])) ∧
    (∀ init gen u tps prompt mn, generate_with_files init gen u tps h prompt mn st =
      (.error missingCookieError, st, [])) ∧
    (∀ init save url, download_image init save h url st =
      (.error missingCookieShortError, st)) := by
  have hf : pyFalsy (extract_cookies_from_request h).1 = true := by
    rw [hx]; rfl
  exact ⟨by decide,
    fun init gen req => generate_content_falsy init gen h req st hf,
    fun init sm req => chat_with_history_falsy init sm h req st hf,
    fun init gen req => generate_image_falsy init gen h req st hf,
    fun init gen u tp prompt mn => edit_image_falsy init gen u tp h prompt mn st hf,
    fun init gen u tps prompt mn => generate_with_files_falsy init gen u tps h prompt mn st hf,
    fun init save url => download_image_falsy init save h url st hf⟩

theorem claim_C9_witness :
    (extract_cookies_from_request "__Secure-1PSID=").1 = some "" ∧
    generate_content (fun _ _ => .ok ()) (fun _ _ _ => .error "e") "__Secure-1PSID="
      { prompt := "p" } st0 = (.error missingCookieError, st0) :=
  ⟨by decide, (claim_C9 "__Secure-1PSID=" st0 (by decide)).2.1 _ _ _⟩

theorem append_ne_empty_left (p x : String) (hp : p ≠ "") : p ++ x ≠ "" := by
  intro h
  have hl := congrArg String.length h
  rw [String.length_append] at hl
  have hz : p.length ≠ 0 := length_ne_zero_of_ne_empty p hp
  have h0 : ("" : String).length = 0 := rfl
  omega

theorem final_error_cons (gen : String → Except String UpstreamResponse)
    (v : String) (rest : List String) (le : Option String) :
    final_error gen (v :: rest) le =
      final_error gen rest (some (attempt_record gen v)) := rfl

theorem loop_all_fail (gen : String → Except String UpstreamResponse) (l : List String) :
    ∀ le, (∀ v ∈ l, attempt_fails gen v = true) →
      generate_image_loop gen l le = (.error (final_error gen l le), l) := by
  induction l with
  | nil => intro le _; rfl
  | cons v rest ih =>
    intro le hf
    have hv : attempt_fails gen v = true := hf v (List.mem_cons_self v rest)
    have hrest : ∀ u ∈ rest, attempt_fails gen u = true :=
      fun u hu => hf u (List.mem_cons_of_mem v hu)
    rw [final_error_cons]
    unfold generate_image_loop
    cases hg : gen v with
    | error e =>
      have hrec : attempt_record gen v = e := by
        unfold attempt_record
        rw [hg]
      simp [ih (some e) hrest, hrec]
    | ok resp =>
      have hempty : (image_gen_extract resp.images).isEmpty = true := by
        unfold attempt_fails at hv
        rw [hg] at hv
        exact hv
      have hrec : attempt_record gen v = "No images generated with prompt: " ++ v := by
        unfold attempt_record
        rw [hg]
      simp [hempty, ih (some ("No images generated with prompt: " ++ v)) hrest, hrec]

theorem loop_first_success (gen : String → Except String UpstreamResponse)
    (v : String) (resp : UpstreamResponse) (l₂ : List String)
    (hv : gen v = .ok resp)
    (himg : (image_gen_extract resp.images).isEmpty = false) :
    ∀ l₁ le, (∀ u ∈ l₁, attempt_fails gen u = true) →
      generate_image_loop gen (l₁ ++ v :: l₂) le =
        (.ok (image_success_response resp), l₁ ++ [v]) := by
  intro l₁
  induction l₁ with
  | nil =>
    intro le _
    rw [List.nil_append, List.nil_append]
    unfold generate_image_loop
    rw [hv]
    simp [himg]
  | cons u rest ih =>
    intro le hf
    have hu : attempt_fails gen u = true := hf u (List.mem_cons_self u rest)
    have hrest : ∀ w ∈ rest, attempt_fails gen w = true :=
      fun w hw => hf w (List.mem_cons_of_mem u hw)
    rw [List.cons_append]
    unfold generate_image_loop
    cases hg : gen u with
    | error e =>
      simp [ih (some e) hrest]
    | ok r =>
      have hempty : (image_gen_extract r.images).isEmpty = true := by
        unfold attempt_fails at hu
        rw [hg] at hu
        exact hu
      simp [hempty, ih (some ("No images generated with prompt: " ++ u)) hrest]

/-- Claim C5: with identity extracted and a client acquired, `generate_image`
tries the four fixed prompt templates in order; (a) for any decomposition of
the template list with all earlier templates failing (raising, or yielding no
image with a non-empty URL) and the next yielding an image, it returns that
template's shaped result (images with non-empty URLs classified as
`"generated"` exactly when the URL contains the generated-content marker,
else `"web"`), having invoked only the templates up to and including the
successful one; (b) raising templates have their message recorded and the
loop continues; when every template fails, the handler responds 500 with the
non-empty detail carrying the last recorded failure reason (the generic
message only if that reason is falsy). -/
theorem claim_C5 (init : String → Option String → Except String Unit)
    (gen : Client → String → ModelE → Except String UpstreamResponse)
    (h : String) (req : ImageGenerateRequest) (st st' : ServerState)
    (psid : String) (psidts : Option String) (client : Client)
    (hx : extract_cookies_from_request h = (some psid, psidts)) (hpsid : psid ≠ "")
    (hacq : get_client_for_cookies init psid psidts st = (.ok client, st')) :
    (∀ l₁ v l₂ resp,
      prompts_to_try req.prompt = l₁ ++ v :: l₂ →
      (∀ u ∈ l₁, attempt_fails (fun w => gen client w (model_mapping req.model)) u = true) →
      gen client v (model_mapping req.model) = .ok resp →
      (image_gen_extract resp.images).isEmpty = false →
      generate_image init gen h req st =
        (.ok (image_success_response resp), st', l₁ ++ [v])) ∧
    ((∀ u ∈ prompts_to_try req.prompt,
        attempt_fails (fun w => gen client w (model_mapping req.model)) u = true) →
      generate_image init gen h req st =
        (.error { status := 500,
                  detail := "Failed to generate image: " ++
                    pyOrStr (some (attempt_record
                      (fun w => gen client w (model_mapping req.model))
                      ("Make an image: " ++ req.prompt))) allVariationsMsg },
         st', prompts_to_try req.prompt) ∧
      "Failed to generate image: " ++
        pyOrStr (some (attempt_record
          (fun w => gen client w (model_mapping req.model))
          ("Make an image: " ++ req.prompt))) allVariationsMsg ≠ "") := by
  constructor
  · intro l₁ v l₂ resp hdec hfail hv himg
    unfold generate_image
    rw [hx]
    simp only [hpsid, if_false]
    rw [hacq]  -- may need simp to reduce matches
    simp only []
    rw [hdec, loop_first_success (fun w => gen client w (model_mapping req.model))
      v resp l₂ hv himg l₁ none hfail]
  · intro hfail
    have hall := loop_all_fail (fun w => gen client w (model_mapping req.model))
      (prompts_to_try req.prompt) none hfail
    have hfe : final_error (fun w => gen client w (model_mapping req.model))
        (prompts_to_try req.prompt) none =
        pyOrStr (some (attempt_record
          (fun w => gen client w (model_mapping req.model))
          ("Make an image: " ++ req.prompt))) allVariationsMsg := rfl
    constructor
    · unfold generate_image
      rw [hx]
      simp only [hpsid, if_false]
      rw [hacq]
      simp only []
      rw [hall, hfe]
    · exact append_ne_empty_left _ _ (by decide)

theorem claim_C5_witness :
    generate_image (fun _ _ => .ok ()) (fun _ _ _ => .error "boom")
        "__Secure-1PSID=abc" { prompt := "p" } st0 =
      (.error { status := 500, detail := "Failed to generate image: boom" },
       { cache := [("abc:", { id := 0, running := true })], nextId := 1 },
       prompts_to_try "p") := by
  have hmain := (claim_C5 (fun _ _ => .ok ()) (fun _ _ _ => .error "boom")
      "__Secure-1PSID=abc" { prompt := "p" } st0
      { cache := [("abc:", { id := 0, running := true })], nextId := 1 }
      "abc" none { id := 0, running := true } (by decide) (by decide) rfl).2
      (fun u _ => rfl)
  exact hmain.1

theorem pyTruthyList_eq_toList (x : Option String) (h : x ≠ some "") :
    pyTruthyList x = x.toList := by
  cases x with
  | none => rfl
  | some s =>
    have hs : s ≠ "" := fun h' => h (by rw [h'])
    simp [pyTruthyList, hs]

/-- Claim C6, counterexample: the claim requires the metadata passed upstream
to be exactly the subset of fields present in the request; a request whose
only present field is `chat_id` with the empty-string value has present
subset `[""]`, yet the code omits the field and passes `None` (a fresh
conversation) to `start_chat`. -/
theorem claim_C6_counterexample :
    presentSubset (some "") none none = [""] ∧
    chat_metadata_arg (some "") none none = none := ⟨rfl, rfl⟩

/-- Claim C6 (amended): for every chat request whose supplied metadata fields
are non-empty, the continuation metadata passed to the upstream `start_chat`
call is exactly the subset of `(chat_id, reply_id, reply_candidate_id)` that
is present, in that order, with absent fields omitted entirely and never
padded with null placeholders (`None` is passed when the subset is empty);
present-but-empty-string fields are dropped like absent ones; in particular a
request supplying only `chat_id = "c1"` produces exactly `["c1"]`. -/
theorem claim_C6 (c r rc : Option String)
    (hc : c ≠ some "") (hr : r ≠ some "") (hrc : rc ≠ some "") :
    chat_metadata_list c r rc = presentSubset c r rc ∧
    chat_metadata_arg c r rc =
      (if presentSubset c r rc = [] then none else some (presentSubset c r rc)) ∧
    chat_metadata_arg (some "c1") none none = some ["c1"] := by
  have hl : chat_metadata_list c r rc = presentSubset c r rc := by
    unfold chat_metadata_list presentSubset
    rw [pyTruthyList_eq_toList c hc, pyTruthyList_eq_toList r hr,
      pyTruthyList_eq_toList rc hrc]
  refine ⟨hl, ?_, rfl⟩
  unfold chat_metadata_arg
  rw [hl]

theorem claim_C6_witness :
    chat_metadata_list (some "c1") none none = presentSubset (some "c1") none none ∧
    chat_metadata_arg (some "c1") none none =
      (if presentSubset (some "c1") none none = [] then none
       else some (presentSubset (some "c1") none none)) ∧
    chat_metadata_arg (some "c1") none none = some ["c1"] :=
  claim_C6 (some "c1") none none (by decide) (by decide) (by decide)

/-- Claim C10: the chat handler treats a present-but-empty-string metadata
field exactly like an absent one: in each position `some ""` produces the
same `start_chat` metadata argument as `none`, and when every supplied field
is empty or absent the upstream call receives `None` rather than a list of
empty strings. -/
theorem claim_C10 :
    (∀ r rc, chat_metadata_arg (some "") r rc = chat_metadata_arg none r rc) ∧
    (∀ c rc, chat_metadata_arg c (some "") rc = chat_metadata_arg c none rc) ∧
    (∀ c r, chat_metadata_arg c r (some "") = chat_metadata_arg c r none) ∧
    (∀ c r rc, (c = none ∨ c = some "") → (r = none ∨ r = some "") →
      (rc = none ∨ rc = some "") → chat_metadata_arg c r rc = none) := by
  refine ⟨fun r rc => rfl, fun c rc => ?_, fun c r => ?_, fun c r rc h1 h2 h3 => ?_⟩
  · unfold chat_metadata_arg chat_metadata_list
    rfl
  · unfold chat_metadata_arg chat_metadata_list
    rfl
  · rcases h1 with rfl | rfl <;> rcases h2 with rfl | rfl <;>
      rcases h3 with rfl | rfl <;> rfl

theorem claim_C10_witness :
    chat_metadata_arg (some "") (some "") (some "") = none ∧
    chat_metadata_arg (some "") (some "x") none = chat_metadata_arg none (some "x") none :=
  ⟨claim_C10.2.2.2 (some "") (some "") (some "") (Or.inr rfl) (Or.inr rfl) (Or.inr rfl),
   claim_C10.1 (some "x") none⟩

/-- Claim C7, counterexample: in `edit_image` the `finally: os.unlink(...)`
is not wrapped in its own try/except, so a failing release after a successful
generation replaces the success with a 500 — the release failure is not
swallowed and does change the handler's primary result (with release
succeeding, the very same request returns success). -/
theorem claim_C7_counterexample :
    (edit_image (fun _ _ => .ok ())
        (fun _ _ _ _ => .ok { text := "t", thoughts := none, images := [],
                              metadata := [], rcid := "r" })
        (fun _ => some "unlink failed") "/tmp/f.png"
        "__Secure-1PSID=abc" "colorful" "gemini-2.5-flash" st0).1 =
      .error { status := 500, detail := "Failed to edit image: unlink failed" } ∧
    (edit_image (fun _ _ => .ok ())
        (fun _ _ _ _ => .ok { text := "t", thoughts := none, images := [],
                              metadata := [], rcid := "r" })
        (fun _ => none) "/tmp/f.png"
        "__Secure-1PSID=abc" "colorful" "gemini-2.5-flash" st0).1 =
      .ok (shape_generate_response
        { text := "t", thoughts := none, images := [], metadata := [], rcid := "r" }) :=
  ⟨rfl, rfl⟩

/-- Claim C7 (amended): both attachment-taking handlers run their release
phase on every exit path (the unlink log always covers every staged file).
In `generate_with_files` each release is wrapped in `try ... except: pass`,
so release outcomes never change the handler's result (success stays success
and an upstream failure surfaces as the upstream 500) and the result is
independent of the release environment.  In `edit_image` the release is NOT
guarded: when the unlink succeeds the primary result or error is preserved,
but a failing unlink replaces either outcome with a 500 carrying the unlink
error. -/
theorem claim_C7 (init : String → Option String → Except String Unit)
    (gen : Client → String → List String → ModelE → Except String UpstreamResponse)
    (h : String) (st st' : ServerState)
    (psid : String) (psidts : Option String) (client : Client)
    (hx : extract_cookies_from_request h = (some psid, psidts)) (hpsid : psid ≠ "")
    (hacq : get_client_for_cookies init psid psidts st = (.ok client, st')) :
    (∀ u tps prompt mn resp, gen client prompt tps (model_mapping mn) = .ok resp →
      generate_with_files init gen u tps h prompt mn st =
        (.ok (shape_generate_response resp), st', tps)) ∧
    (∀ u tps prompt mn e, gen client prompt tps (model_mapping mn) = .error e →
      generate_with_files init gen u tps h prompt mn st =
        (.error { status := 500,
                  detail := "Failed to generate content with files: " ++ e }, st', tps)) ∧
    (∀ u₁ u₂ tps prompt mn, generate_with_files init gen u₁ tps h prompt mn st =
      generate_with_files init gen u₂ tps h prompt mn st) ∧
    (∀ u tp prompt mn resp, u tp = none →
      gen client ("Edit this image: " ++ prompt) [tp] (model_mapping mn) = .ok resp →
      edit_image init gen u tp h prompt mn st =
        (.ok (shape_generate_response resp), st', [tp])) ∧
    (∀ u tp prompt mn e, u tp = none →
      gen client ("Edit this image: " ++ prompt) [tp] (model_mapping mn) = .error e →
      edit_image init gen u tp h prompt mn st =
        (.error { status := 500, detail := "Failed to edit image: " ++ e }, st', [tp])) ∧
    (∀ u tp prompt mn err, u tp = some err →
      edit_image init gen u tp h prompt mn st =
        (.error { status := 500, detail := "Failed to edit image: " ++ err }, st', [tp])) := by
  refine ⟨?_, ?_, ?_, ?_, ?_, ?_⟩
  · intro u tps prompt mn resp hg
    unfold generate_with_files
    rw [hx]
    simp [hpsid, hacq, hg]
  · intro u tps prompt mn e hg
    unfold generate_with_files
    rw [hx]
    simp [hpsid, hacq, hg]
  · intro u₁ u₂ tps prompt mn
    rfl
  · intro u tp prompt mn resp hu hg
    unfold edit_image edit_image_try
    rw [hx]
    simp [hpsid, hacq, hg, hu]
  · intro u tp prompt mn e hu hg
    unfold edit_image edit_image_try
    rw [hx]
    simp [hpsid, hacq, hg, hu]
  · intro u tp prompt mn err hu
    unfold edit_image edit_image_try
    rw [hx]
    cases hg : gen client ("Edit this image: " ++ prompt) [tp] (model_mapping mn) with
    | ok resp => simp [hpsid, hacq, hg, hu]
    | error e => simp [hpsid, hacq, hg, hu]

theorem claim_C7_witness :
    generate_with_files (fun _ _ => .ok ())
        (fun _ _ _ _ => .ok { text := "t", thoughts := none, images := [],
                              metadata := [], rcid := "r" })
        (fun _ => some "unlink failed") ["/tmp/a.pdf", "/tmp/b.jpg"]
        "__Secure-1PSID=abc" "analyze" "gemini-2.5-flash" st0 =
      (.ok (shape_generate_response
          { text := "t", thoughts := none, images := [], metadata := [], rcid := "r" }),
       { cache := [("abc:", { id := 0, running := true })], nextId := 1 },
       ["/tmp/a.pdf", "/tmp/b.jpg"]) :=
  (claim_C7 (fun _ _ => .ok ())
      (fun _ _ _ _ => .ok { text := "t", thoughts := none, images := [],
                            metadata := [], rcid := "r" })
      "__Secure-1PSID=abc" st0
      { cache := [("abc:", { id := 0, running := true })], nextId := 1 }
      "abc" none { id := 0, running := true } (by decide) (by decide) rfl).1
    (fun _ => some "unlink failed") ["/tmp/a.pdf", "/tmp/b.jpg"]
    "analyze" "gemini-2.5-flash" _ rfl

/-- Claim C8: after `shutdown_event` the cache is empty; provided the cached
client objects are distinct (their identities are pairwise different, as
holds for clients minted by the creation counter), every entry stored with a
true liveness flag received exactly one close invocation and every entry
stored with a false flag received none. -/
theorem claim_C8 (st : ServerState)
    (hnd : (st.cache.map (fun e => e.2.id)).Nodup) :
    (shutdown_event st).1.cache = [] ∧
    (shutdown_event st).2 = (st.cache.map Prod.snd).filter (fun c => c.running) ∧
    (∀ e ∈ st.cache, e.2.running = true → ((shutdown_event st).2.count e.2) = 1) ∧
    (∀ e ∈ st.cache, e.2.running = false → ((shutdown_event st).2.count e.2) = 0) := by
  have hlog : close_live st.cache = (st.cache.map Prod.snd).filter (fun c => c.running) := by
    induction st.cache with
    | nil => rfl
    | cons e rest ih =>
      obtain ⟨k, c⟩ := e
      by_cases hr : c.running
      · simp [close_live, hr, ih]
      · simp [close_live, hr, ih]
  have hvalsnd : (st.cache.map (fun e => e.2.id)).Nodup := hnd
  have hvnd : (st.cache.map Prod.snd).Nodup := by
    have : ((st.cache.map Prod.snd).map Client.id).Nodup := by
      rw [List.map_map]
      exact hvalsnd
    exact List.Nodup.of_map Client.id this
  refine ⟨rfl, hlog, ?_, ?_⟩
  · intro e he hr
    have hmem : e.2 ∈ st.cache.map Prod.snd := List.mem_map_of_mem Prod.snd he
    have h1 : (st.cache.map Prod.snd).count e.2 = 1 :=
      List.count_eq_one_of_mem hvnd hmem
    have h2 : (shutdown_event st).2.count e.2 =
        (st.cache.map Prod.snd).count e.2 := by
      show (close_live st.cache).count e.2 = _
      rw [hlog]
      exact List.count_filter (by simp [hr])
    rw [h2, h1]
  · intro e he hr
    have hnotmem : e.2 ∉ (shutdown_event st).2 := by
      intro hmem
      have : e.2.running = true := by
        have hm : e.2 ∈ (st.cache.map Prod.snd).filter (fun c => c.running) := by
          rw [← hlog]
          exact hmem
        simpa using (List.mem_filter.mp hm).2
      rw [hr] at this
      exact Bool.false_ne_true this
    exact List.count_eq_zero.mpr hnotmem

theorem claim_C8_witness :
    (shutdown_event { cache := [("a:", { id := 0, running := true }),
                                ("b:", { id := 1, running := false })],
                      nextId := 2 }).1.cache = [] ∧
    (shutdown_event { cache := [("a:", { id := 0, running := true }),
                                ("b:", { id := 1, running := false })],
                      nextId := 2 }).2.count { id := 0, running := true } = 1 ∧
    (shutdown_event { cache := [("a:", { id := 0, running := true }),
                                ("b:", { id := 1, running := false })],
                      nextId := 2 }).2.count { id := 1, running := false } = 0 := by
  have hmain := claim_C8 { cache := [("a:", { id := 0, running := true }),
                                     ("b:", { id := 1, running := false })],
                           nextId := 2 } (by decide)
  exact ⟨hmain.1,
    hmain.2.2.1 ("a:", { id := 0, running := true }) (by decide) rfl,
    hmain.2.2.2 ("b:", { id := 1, running := false }) (by decide) rfl⟩

end GeminiServer
